import Mathlib

/-!
Verification of the mona parser-combinator library (src/mona.js).

The JavaScript source is shallowly embedded: the parse state, source
positions and parse errors become Lean structures; each parser of the
source becomes a Lean function from state to state.  JavaScript values
that flow through the `value` field are modelled by `JSVal F`, where the
constructor `fn` carries a function value from an arbitrary environment
type `F`; the combinators that dispatch on `typeof arg === "function"`
(the internal `attr` helper) take an application map
`app : F → JSVal F → JSVal F` so that applying a function value is
meaningful.  `undefined` is `JSVal.undef`; an absent / undefined object
field of the embedded records is `Option.none`.  JavaScript strings used
as parser input are modelled as `List Char` (the source only uses
`input.length`, `input[0]`, `input.slice(1)` on them, and `input[0]` is a
one-character string, modelled as `.str (String.singleton c)`).
-/

set_option autoImplicit false

namespace Mona

/-- JavaScript values appearing in the `value` and `userState` fields of a
parse state: `undefined`, strings, booleans, and function values drawn
from an environment type `F`. -/
inductive JSVal (F : Type) where
  | undef : JSVal F
  | str : String → JSVal F
  | bool : Bool → JSVal F
  | fn : F → JSVal F
  deriving DecidableEq, Repr

/-- True exactly when `typeof v === "function"` would hold in the source. -/
def JSVal.isFn {F : Type} : JSVal F → Bool
  | .fn _ => true
  | _ => false

/-- SourcePosition (mona.js line 581): `{name, line, column}`, line and
column defaulting to 1.  `name` is the optional file name. -/
structure SourcePosition where
  name : Option String
  line : Nat
  column : Nat
  deriving DecidableEq, Repr

/-- ParseError (mona.js line 594): `{position, messages, type}`.  The
constructor stores whatever it is given; a call that omits `type` (as the
merge in `mergeErrors` does) leaves it `undefined`, hence the `Option`.
The `position` is `Option` because `mergeErrors` reads `err1.pos`, a field
that does not exist on `ParseError` objects, so the merged record carries
`undefined` there. -/
structure ParseError where
  position : Option SourcePosition
  messages : List String
  type : Option String
  deriving DecidableEq, Repr

/-- mergeErrors (mona.js lines 600-608), fully faithful to the JavaScript
including the crash: when `err1` is present with an empty message list and
`err2` is absent, the expression `err2.messages.length` throws a
TypeError, modelled as `Except.error ()`.  In the final branch the source
builds `new ParseError(err1.pos, err1.messages.concat(err2.messages))`:
`err1.pos` is undefined (the field is named `position`) and no type is
passed, so both come out `none`. -/
def mergeErrors (err1 err2 : Option ParseError) : Except Unit (Option ParseError) :=
  match err1 with
  | none => .ok err2
  | some e1 =>
    match err2 with
    | none =>
      if e1.messages = [] then .error ()
      else .ok (some e1)
    | some e2 =>
      if e1.messages = [] ∧ e2.messages ≠ [] then .ok (some e2)
      else if e2.messages = [] ∧ e1.messages ≠ [] then .ok (some e1)
      else .ok (some ⟨none, e1.messages ++ e2.messages, none⟩)

instance {α β : Type} [DecidableEq α] [DecidableEq β] : DecidableEq (Except α β) := fun a b =>
  match a, b with
  | .ok x, .ok y =>
    if h : x = y then isTrue (by subst h; rfl) else isFalse (by simp [h])
  | .ok _, .error _ => isFalse (by simp)
  | .error _, .ok _ => isFalse (by simp)
  | .error x, .error y =>
    if h : x = y then isTrue (by subst h; rfl) else isFalse (by simp [h])

/-- Specialisation of `mergeErrors` to a present second argument, the only
way the source ever calls it (from `fail`, with a freshly constructed
error).  `mergeErrors_eq_mergeWithFresh` below proves agreement. -/
def mergeWithFresh (err1 : Option ParseError) (err2 : ParseError) : ParseError :=
  match err1 with
  | none => err2
  | some e1 =>
    if e1.messages = [] ∧ err2.messages ≠ [] then err2
    else if err2.messages = [] ∧ e1.messages ≠ [] then e1
    else ⟨none, e1.messages ++ err2.messages, none⟩

/-- ParserState (mona.js line 610): `{value, restOfInput, position,
userState, error}`.  The constructor also accepts a `hasConsumed` argument
but never stores it. -/
structure ParserState (F : Type) where
  value : JSVal F
  restOfInput : List Char
  position : SourcePosition
  userState : JSVal F
  error : Option ParseError
  deriving DecidableEq, Repr

/-- A parser is a function from parser state to parser state (mona.js
lines 38-44). -/
abbrev Parser (F : Type) : Type := ParserState F → ParserState F

/-- The internal `attr` helper (mona.js lines 560-572) specialised to the
`value` field: copy the state and set `value`; when the new value is a
function (`typeof arg === "function"`) it is applied to the old field
value instead of being stored. -/
def attrValue {F : Type} (app : F → JSVal F → JSVal F)
    (s : ParserState F) (arg : JSVal F) : ParserState F :=
  { s with value := match arg with
                    | .fn f => app f s.value
                    | v => v }

/-- value (mona.js lines 52-56): `attr(parserState, "value", val)`. -/
def value {F : Type} (app : F → JSVal F → JSVal F) (val : JSVal F) : Parser F :=
  fun parserState => attrValue app parserState val

/-- bind (mona.js lines 68-73): runs `parser`, then always hands the
resulting value to `fun_` and runs the parser it returns on the new state.
The source performs no error check here. -/
def bind {F : Type} (parser : Parser F) (fun_ : JSVal F → Parser F) : Parser F :=
  fun parserState =>
    let newParserState := parser parserState
    fun_ newParserState.value newParserState

/-- The JavaScript idiom `x || d` on an optional string argument: an
absent argument and the empty string are both falsy. -/
def jsOrStr (x : Option String) (d : String) : String :=
  match x with
  | some s => if s = "" then d else s
  | none => d

/-- fail (mona.js lines 83-92): defaults `msg` to "parser error" and
`type` to "failure", then copies the state and sets its error to the merge
of the old error with `new ParseError(position, [msg], type)`.  The update
goes through `attr` with a function argument, which applies the merging
closure to the old `error` field. -/
def fail {F : Type} (msg ty : Option String) : Parser F :=
  let m := jsOrStr msg "parser error"
  let t := jsOrStr ty "failure"
  fun parserState =>
    { parserState with
      error := some (mergeWithFresh parserState.error
        ⟨some parserState.position, [m], some t⟩) }

/-- token (mona.js lines 100-120): on non-empty input, copies the state
and position, advances the position (newline: column 1, line + 1;
otherwise column + 1), stores the consumed unit as the value and drops it
from the input; on empty input, applies `fail("unexpected eof", "eof")` to
the state. -/
def token {F : Type} : Parser F :=
  fun parserState =>
    match parserState.restOfInput with
    | c :: rest =>
      let newPosition :=
        if c = '\n' then
          { parserState.position with column := 1, line := parserState.position.line + 1 }
        else
          { parserState.position with column := parserState.position.column + 1 }
      { parserState with
        value := .str (String.singleton c)
        restOfInput := rest
        position := newPosition }
    | [] => fail (some "unexpected eof") (some "eof") parserState

/-- eof (mona.js lines 128-136), faithful to the source: on empty input it
returns a parser state (value set to `true`); on non-empty input it
returns `fail("expected an eof", "expectation")` itself — a parser
function, NOT applied to the state — so the result type is a sum. -/
def eof {F : Type} (app : F → JSVal F → JSVal F)
    (parserState : ParserState F) : ParserState F ⊕ Parser F :=
  if parserState.restOfInput.isEmpty then
    .inl (attrValue app parserState (.bool true))
  else
    .inr (fail (some "expected an eof") (some "expectation"))

/-- orHelper (mona.js lines 167-177): run the first parser; if the result
carries an error and another parser remains, run the remaining parsers
against the ORIGINAL incoming state; otherwise return the result. -/
def orHelper {F : Type} : Parser F → List (Parser F) → Parser F
  | p, [] => fun parserState => p parserState
  | p, q :: qs => fun parserState =>
      let res := p parserState
      if res.error.isSome then orHelper q qs parserState else res

/-- or (mona.js lines 166-179): variadic alternation, delegating to
`orHelper` on the argument list (modelled as first parser plus rest). -/
def or {F : Type} (p : Parser F) (ps : List (Parser F)) : Parser F :=
  orHelper p ps

/-- Options object of `parse` (mona.js lines 12-24): `throwOnError`
(absent = undefined, falsy), `fileName`, `userState`. -/
structure ParseOpts (F : Type) where
  throwOnError : Option Bool
  fileName : Option String
  userState : JSVal F
  deriving DecidableEq, Repr

/-- Outcome of the entry point: the error was thrown, the error object was
returned, or the final value was returned. -/
inductive ParseResult (F : Type) where
  | raised : ParseError → ParseResult F
  | returned : ParseError → ParseResult F
  | succeeded : JSVal F → ParseResult F
  deriving DecidableEq, Repr

/-- parse (mona.js lines 18-32): `opts = opts || {throwOnError: true}`,
build the initial state with `undefined` value, the input, the
`userState` from the options, a fresh `SourcePosition(fileName)`, and no
error; run the
parser; throw the error when present and `opts.throwOnError` is truthy,
return it when present and `opts.throwOnError` is falsy, otherwise return
the value.  An options object supplied without `throwOnError` leaves that
field undefined, which is falsy. -/
def parse {F : Type} (parser : Parser F) (input : List Char)
    (opts : Option (ParseOpts F)) : ParseResult F :=
  let o := opts.getD ⟨some true, none, .undef⟩
  let parseState := parser ⟨.undef, input, ⟨o.fileName, 1, 1⟩, o.userState, none⟩
  match parseState.error with
  | some e => if o.throwOnError.getD false then .raised e else .returned e
  | none => .succeeded parseState.value

/-!
Concrete fixtures used by witnesses, counterexamples and bug evaluations.
-/

/-- A sample function environment for concrete states: `Unit` names one
function value, interpreted as the identity on values. -/
def appU : Unit → JSVal Unit → JSVal Unit := fun _ v => v

/-- The initial source position (no file name, line 1, column 1). -/
def pos0 : SourcePosition := ⟨none, 1, 1⟩

/-- A sample pre-existing error sitting on a state. -/
def errBoom : ParseError := ⟨some pos0, ["boom"], some "failure"⟩

/-- An error-free state with empty remaining input. -/
def state0 : ParserState Unit := ⟨.undef, [], pos0, .undef, none⟩

/-- An error-free state with remaining input "ab". -/
def stateAB : ParserState Unit := ⟨.undef, ['a', 'b'], pos0, .undef, none⟩

/-- A state with remaining input "a" already carrying `errBoom`. -/
def stateErr : ParserState Unit := ⟨.undef, ['a'], pos0, .undef, some errBoom⟩

/-- A state with empty remaining input already carrying `errBoom`. -/
def stateErrEmpty : ParserState Unit := ⟨.undef, [], pos0, .undef, some errBoom⟩

/-- A sample existing error with its own position and type. -/
def errA : ParseError := ⟨some ⟨none, 1, 1⟩, ["a"], some "typeA"⟩

/-- A sample new error with a distinct position and type. -/
def errB : ParseError := ⟨some ⟨none, 2, 2⟩, ["b"], some "typeB"⟩

/-- The parser `fail("a")`. -/
def failA : Parser Unit := Mona.fail (some "a") none

/-- The parser `fail("b")`. -/
def failB : Parser Unit := Mona.fail (some "b") none

/-!
Theorems.
-/

/-- The only way the source calls `mergeErrors` is from `fail`, with a
freshly built (present) second argument; on such calls it never crashes
and agrees with the total specialisation `mergeWithFresh` used in the
embedding of `fail`. -/
theorem mergeErrors_eq_mergeWithFresh (err1 : Option ParseError) (err2 : ParseError) :
    mergeErrors err1 (some err2) = .ok (some (mergeWithFresh err1 err2)) := by
  cases err1
  · rfl
  · simp only [mergeErrors, mergeWithFresh]
    split
    · rfl
    · split <;> rfl

/-- C1: evaluation of the code at a failing input.  The claim states that
when `parser` fails, `bind(parser, f)` returns the failed state untouched
and never invokes `f`.  The source (mona.js lines 68-73) performs no error
check: with `parser = fail("nope")` and `f = fun _ => token()` on an
error-free state with input "ab", the continuation runs and consumes a
character past the failure, so the result differs from the failed state
(its remaining input is "b", while the failed state still holds "ab"). -/
theorem C1_bind_runs_continuation_after_failure :
    Mona.bind (Mona.fail (some "nope") none) (fun _ => Mona.token) stateAB
        ≠ Mona.fail (some "nope") none stateAB
      ∧ (Mona.bind (Mona.fail (some "nope") none) (fun _ => Mona.token) stateAB).restOfInput
        = ['b']
      ∧ (Mona.fail (some "nope") none stateAB).restOfInput = ['a', 'b']
      ∧ ((Mona.fail (some "nope") none stateAB).error).isSome = true := by
  decide

/-- C2: when the first alternative fails on state s, `or(p1, p2)` is p2
applied to the original state s itself, so no partial consumption (or
error) from the failed alternative is visible to the next alternative. -/
theorem C2_or_backtracks {F : Type} (p1 p2 : Parser F) (s : ParserState F)
    (h : ((p1 s).error).isSome = true) :
    Mona.or p1 [p2] s = p2 s := by
  simp only [Mona.or, orHelper, h, if_true]

/-- C2 witness: `or(fail("a"), value("y"))` on the empty state runs
`value("y")` on that original state. -/
theorem C2_or_backtracks_witness :
    Mona.or failA [Mona.value appU (.str "y")] state0
      = Mona.value appU (.str "y") state0 :=
  C2_or_backtracks failA (Mona.value appU (.str "y")) state0 (by decide)

/-- C3 counterexample: the claim quantifies over every ParseState, but on
a state that already carries an error, `token()` on empty input does not
fail with messages ["unexpected eof"] and type "eof": the fresh eof error
is merged with the pre-existing one, giving messages
["boom", "unexpected eof"] and undefined type; and on an errored state
with input remaining, the result still carries the old error, so it does
not succeed. -/
theorem C3_token_errored_state_differs :
    (Mona.token stateErrEmpty).error = some ⟨none, ["boom", "unexpected eof"], none⟩
      ∧ ((Mona.token stateErrEmpty).error).map ParseError.messages ≠ some ["unexpected eof"]
      ∧ ((Mona.token stateErrEmpty).error).map ParseError.type ≠ some (some "eof")
      ∧ (Mona.token stateErr).error ≠ none := by
  decide

/-- C3 amended: for every state with no error set, `token()` on non-empty
input consumes exactly one unit, sets the value to that unit and advances
the position (newline: column 1 and line + 1; otherwise column + 1, line
unchanged); on empty input it fails with messages ["unexpected eof"] and
type "eof". -/
theorem C3_token_spec {F : Type} (s : ParserState F) (h : s.error = none) :
    (∀ c rest, s.restOfInput = c :: rest →
      Mona.token s =
        { s with
          value := .str (String.singleton c)
          restOfInput := rest
          position :=
            if c = '\n' then ⟨s.position.name, s.position.line + 1, 1⟩
            else ⟨s.position.name, s.position.line, s.position.column + 1⟩ })
    ∧ (s.restOfInput = [] →
      Mona.token s =
        { s with error := some ⟨some s.position, ["unexpected eof"], some "eof"⟩ }) := by
  constructor
  · intro c rest hcr
    by_cases hc : c = '\n' <;> simp [Mona.token, hcr, hc]
  · intro hnil
    simp [Mona.token, hnil, Mona.fail, mergeWithFresh, jsOrStr, h]

/-- C3 witness: on input "ab" a token is consumed (column moves to 2);
on empty input the eof error is produced. -/
theorem C3_token_spec_witness :
    Mona.token stateAB =
        { stateAB with value := .str "a", restOfInput := ['b'], position := ⟨none, 1, 2⟩ }
      ∧ Mona.token state0 =
        { state0 with error := some ⟨some pos0, ["unexpected eof"], some "eof"⟩ } := by
  constructor
  · have h := (C3_token_spec stateAB rfl).1 'a' ['b'] rfl
    rw [h]; decide
  · exact (C3_token_spec state0 rfl).2 rfl

/-- C4 counterexample: the claim says `value(v)` clears any error present
on the incoming state; on the concrete state `stateErr`, which carries an
error, the resulting error field is still set, so the claim is false. -/
theorem C4_value_does_not_clear_error :
    (Mona.value appU (.str "x") stateErr).error ≠ none := by
  decide

/-- C4 amended: for every non-function v, `value(v)` sets the value field
to v and leaves every other field — remaining input, position, user state,
and in particular any pre-existing error — unchanged; it preserves an
error rather than clearing it. -/
theorem C4_value_amended {F : Type} (app : F → JSVal F → JSVal F)
    (v : JSVal F) (s : ParserState F) (h : v.isFn = false) :
    Mona.value app v s = { s with value := v } := by
  cases v with
  | fn f => simp [JSVal.isFn] at h
  | undef => rfl
  | str s2 => rfl
  | bool b => rfl

/-- C4 amended witness: on the errored state `stateErr`, `value("x")`
sets the value and keeps everything else, including the error. -/
theorem C4_value_amended_witness :
    Mona.value appU (.str "x") stateErr = { stateErr with value := .str "x" } :=
  C4_value_amended appU (.str "x") stateErr rfl

/-- C5: evaluation of the code at the failing input.  On empty input
`eof()` succeeds with value true without consuming, as claimed; but on
non-empty input the source (mona.js line 133) returns the parser
`fail("expected an eof", "expectation")` itself, never applied to the
state, so the result is a function rather than the claimed failed
ParseState. -/
theorem C5_eof_returns_function_not_state :
    Mona.eof appU stateAB
        = Sum.inr (Mona.fail (some "expected an eof") (some "expectation"))
      ∧ Mona.eof appU state0 = Sum.inl { state0 with value := .bool true } :=
  ⟨rfl, rfl⟩

/-- C6 counterexample: merging two present, non-empty errors does not keep
the new error's type and position as the claim states: on `errA`, `errB`
the merged record has undefined position and undefined type (the source
reads the nonexistent field `err1.pos` and passes no type), not
`errB.position` and `errB.type`. -/
theorem C6_merge_drops_new_type_and_position :
    mergeErrors (some errA) (some errB)
        ≠ .ok (some ⟨errB.position, errA.messages ++ errB.messages, errB.type⟩)
      ∧ mergeErrors (some errA) (some errB) = .ok (some ⟨none, ["a", "b"], none⟩) := by
  decide

/-- C6 amended: if the existing error is absent the result is the new
error; if exactly one side has an empty message sequence the other side
wins; when both are present with non-empty messages the messages are
concatenated but the merged record's position and type are both undefined
(not the new error's); and merging a present message-empty existing error
with an absent new error crashes (TypeError). -/
theorem C6_merge_amended :
    (∀ e2 : Option ParseError, mergeErrors none e2 = .ok e2)
      ∧ (∀ e1 : ParseError, e1.messages ≠ [] → mergeErrors (some e1) none = .ok (some e1))
      ∧ (∀ e1 e2 : ParseError, e1.messages = [] → e2.messages ≠ [] →
          mergeErrors (some e1) (some e2) = .ok (some e2))
      ∧ (∀ e1 e2 : ParseError, e1.messages ≠ [] → e2.messages = [] →
          mergeErrors (some e1) (some e2) = .ok (some e1))
      ∧ (∀ e1 e2 : ParseError, e1.messages ≠ [] → e2.messages ≠ [] →
          mergeErrors (some e1) (some e2)
            = .ok (some ⟨none, e1.messages ++ e2.messages, none⟩))
      ∧ (∀ e1 : ParseError, e1.messages = [] → mergeErrors (some e1) none = .error ()) := by
  refine ⟨fun e2 => rfl, fun e1 h1 => ?_, fun e1 e2 h1 h2 => ?_,
    fun e1 e2 h1 h2 => ?_, fun e1 e2 h1 h2 => ?_, fun e1 h1 => ?_⟩
  · simp [mergeErrors, h1]
  · simp [mergeErrors, h1, h2]
  · simp [mergeErrors, h1, h2]
  · simp [mergeErrors, h1, h2]
  · simp [mergeErrors, h1]

/-- C6 amended witness: the concatenation case at the concrete errors
`errA`, `errB`. -/
theorem C6_merge_amended_witness :
    mergeErrors (some errA) (some errB) = .ok (some ⟨none, ["a", "b"], none⟩) := by
  have h := C6_merge_amended.2.2.2.2.1 errA errB (by decide) (by decide)
  simpa [errA, errB] using h

/-- C7 counterexample: with `or(fail("a"), fail("b"))` on the empty
error-free state, every alternative fails, yet the final error holds only
the last branch's message "b" — the message "a" of the first attempted
alternative is absent, refuting the claim that messages are merged across
every attempted alternative. -/
theorem C7_or_discards_earlier_errors :
    (Mona.or failA [failB] state0).error = some ⟨some pos0, ["b"], some "failure"⟩
      ∧ "a" ∉ (((Mona.or failA [failB] state0).error).map ParseError.messages).getD [] := by
  decide

/-- C7 amended: when every alternative before the last fails on s, the
result of `or` is exactly the last alternative applied to the original
state s; the errors of the earlier alternatives are discarded, so the
final error reflects only the last branch (each branch having run against
the original state). -/
theorem C7_or_amended {F : Type} :
    ∀ (ps : List (Parser F)) (p1 plast : Parser F) (s : ParserState F),
      ((p1 s).error).isSome = true →
      (∀ q ∈ ps, ((q s).error).isSome = true) →
      Mona.or p1 (ps ++ [plast]) s = plast s := by
  intro ps
  induction ps with
  | nil =>
    intro p1 plast s h1 _
    simp only [List.nil_append, Mona.or, orHelper, h1, if_true]
  | cons q qs ih =>
    intro p1 plast s h1 h2
    simp only [List.cons_append, Mona.or, orHelper, h1, if_true]
    exact ih q plast s (h2 q (List.mem_cons_self q qs))
      (fun r hr => h2 r (List.mem_cons_of_mem q hr))

/-- C7 amended witness: `or(fail("a"), fail("b"), value("z"))` on the
empty state equals `value("z")` applied to that original state. -/
theorem C7_or_amended_witness :
    Mona.or failA [failB, Mona.value appU (.str "z")] state0
      = Mona.value appU (.str "z") state0 :=
  C7_or_amended [failB] failA (Mona.value appU (.str "z")) state0 (by decide)
    (by intro q hq; rw [List.mem_singleton] at hq; subst hq; decide)

/-- C8: evaluation of the code at the failing input.  Omitting the options
raises, and an explicit falsy `throwOnError` returns the error object, as
claimed; but a supplied options object that merely omits the
`throwOnError` field leaves it undefined, hence falsy, so the error is
returned rather than raised — contradicting the documented default of
true. -/
theorem C8_parse_opts_without_field_returns :
    Mona.parse (Mona.fail (some "nop") none : Parser Unit) [] none
        = .raised ⟨some pos0, ["nop"], some "failure"⟩
      ∧ Mona.parse (Mona.fail (some "nop") none : Parser Unit) []
          (some ⟨some false, none, .undef⟩)
        = .returned ⟨some pos0, ["nop"], some "failure"⟩
      ∧ Mona.parse (Mona.fail (some "nop") none : Parser Unit) []
          (some ⟨none, none, .undef⟩)
        = .returned ⟨some pos0, ["nop"], some "failure"⟩ := by
  decide

/-- C9: when the argument of `value` is a function value, the internal
`attr` helper dispatches on its type and applies it to the old field, so
the produced value is the application of f to the old state value — the
function itself is not stored, and `value` is not a constant parser over
function payloads. -/
theorem C9_value_applies_function_argument {F : Type}
    (app : F → JSVal F → JSVal F) (f : F) (s : ParserState F) :
    (Mona.value app (.fn f) s).value = app f s.value := rfl

/-- C10: the primitives never silently drop a pre-existing error: when the
state carries error e, `token()` on remaining input returns a state that
still carries e while also consuming exactly one unit (value set to the
consumed unit, input shortened, position advanced), `value(v)` still
carries e, and `fail(msg, type)` carries the merge of e with the newly
created error (in particular its error field is set); no primitive resets
the error field to absent. -/
theorem C10_primitives_preserve_error {F : Type}
    (app : F → JSVal F → JSVal F) (v : JSVal F) (msg ty : Option String)
    (s : ParserState F) (e : ParseError) (h : s.error = some e) :
    (∀ c rest, s.restOfInput = c :: rest →
      Mona.token s =
        { s with
          value := .str (String.singleton c)
          restOfInput := rest
          position :=
            if c = '\n' then ⟨s.position.name, s.position.line + 1, 1⟩
            else ⟨s.position.name, s.position.line, s.position.column + 1⟩ }
      ∧ (Mona.token s).error = some e)
      ∧ (Mona.value app v s).error = some e
      ∧ (Mona.fail msg ty s).error
          = some (mergeWithFresh (some e)
              ⟨some s.position, [jsOrStr msg "parser error"], some (jsOrStr ty "failure")⟩)
      ∧ ((Mona.fail msg ty s).error).isSome = true := by
  refine ⟨?_, h, ?_, rfl⟩
  · intro c rest hcr
    constructor
    · by_cases hc : c = '\n' <;> simp [Mona.token, hcr, hc]
    · simp [Mona.token, hcr, h]
  · simp [Mona.fail, h]

/-- C10 witness: on the errored state `stateErr` (input "a", error with
message "boom"), `token` consumes the unit (value "a", input emptied,
column advanced) while keeping the error, `value` keeps the error, and
`fail("nop")` carries the concatenated merge. -/
theorem C10_primitives_preserve_error_witness :
    Mona.token stateErr
        = { stateErr with value := .str "a", restOfInput := [], position := ⟨none, 1, 2⟩ }
      ∧ (Mona.token stateErr).error = some errBoom
      ∧ (Mona.value appU .undef stateErr).error = some errBoom
      ∧ (Mona.fail (some "nop") none stateErr).error = some ⟨none, ["boom", "nop"], none⟩ := by
  have h := C10_primitives_preserve_error appU .undef (some "nop") none stateErr errBoom rfl
  have ht := h.1 'a' [] rfl
  refine ⟨?_, ht.2, h.2.1, ?_⟩
  · rw [ht.1]; decide
  · rw [h.2.2.1]; decide

end Mona
